import Mathlib

/-!
Shallow embedding of `src/radiation_monitor.py`: the classification and
scoring engine (`classify_event`, `smart_assess`), the relevance filter,
the deduplication ledger and notification loop of `main`, the rollup gate
`should_send_summary`, and the state loader `load_state`.

Python strings are modelled as Lean `String`; `str.lower()`, `str.strip()`,
substring tests (`w in blob`) and `str.startswith` are modelled by the
character-list functions below.  The SHA-1 hash (`hashlib`), the
translation service and the Telegram delivery call are external
collaborators and enter as function parameters.
-/

/-- Substring test on character lists: does the second list contain the
first as a contiguous infix?  Models Python's `pat in hay`. -/
def containsSub (pat : List Char) : List Char → Bool
  | [] => pat.isEmpty
  | c :: t => pat.isPrefixOf (c :: t) || containsSub pat t

/-- Model of Python's `pat in hay` on strings. -/
def strContains (hay pat : String) : Bool := containsSub pat.toList hay.toList

/-- Model of Python's `str.lower()` (the lexicons and inputs of interest are
ASCII plus Arabic, on which ASCII case folding agrees with Python). -/
def pyLower (s : String) : String := String.mk (s.data.map Char.toLower)

/-- Model of Python's `s.startswith(p)`. -/
def startsWithStr (s p : String) : Bool := p.data.isPrefixOf s.data

/-- Model of Python's `str.strip()`. -/
def pyStrip (s : String) : String :=
  String.mk (((s.data.dropWhile Char.isWhitespace).reverse.dropWhile Char.isWhitespace).reverse)

/-- Model of Python's `a or b` on strings (empty string and `None` are falsy;
an absent field is modelled as `""`, which `or` treats the same as `None`). -/
def pyOr (a b : String) : String := if a = "" then b else a

/-- The normalized matching surface: `(title + " " + summary).lower()`. -/
def blobOf (title summary : String) : String := pyLower (title ++ " " ++ summary)

/-- Python `any(w in blob for w in ws)`. -/
def containsAny (blob : String) (ws : List String) : Bool :=
  ws.any (fun w => strContains blob w)

/-- Python `any(w.lower() in blob for w in ws)`. -/
def containsAnyLower (blob : String) (ws : List String) : Bool :=
  ws.any (fun w => strContains blob (pyLower w))

/-- Lexicon `KEYWORDS` from the source. -/
def KEYWORDS : List String :=
  ["radiation", "radioactive", "radiological", "nuclear",
   "leak", "release", "contamination", "evacuation",
   "incident", "emergency", "iaea", "ines", "nrc",
   "tritium", "iodine", "cesium", "caesium",
   "reactor", "plant", "power station",
   "إشعاع", "نووي", "تسرب", "مواد مشعة", "تلوث إشعاعي", "طوارئ إشعاعية",
   "مفاعل", "محطة نووية", "إخلاء"]

/-- Lexicon `NOISE_BLOCK` from the source. -/
def NOISE_BLOCK : List String :=
  ["stock", "shares", "market", "crypto", "bitcoin",
   "movie", "game", "music", "festival", "nuclear family"]

/-- Lexicon `REGULATORY_WORDS` from the source. -/
def REGULATORY_WORDS : List String :=
  ["framework", "regulatory", "regulation", "rulemaking",
   "comment period", "public comment", "consultation",
   "policy", "guidance", "workshop", "public meeting",
   "licensing framework", "proposed rule",
   "request for information", "rfi",
   "commission meeting", "stakeholder", "press release",
   "petition", "hearing", "intervene", "application",
   "limited work authorization", "lwa",
   "notice", "announces", "opens", "accepting applications"]

/-- Lexicon `RADIATION_EVIDENCE` from the source. -/
def RADIATION_EVIDENCE : List String :=
  ["radiation", "radioactive", "radiological",
   "radioactive release", "radiation release",
   "contamination", "dose", "dose rate", "sievert", "becquerel",
   "tritium", "iodine", "cesium", "caesium",
   "ines",
   "إشعاع", "مواد مشعة", "تلوث إشعاعي", "جرعة", "معدل الجرعة",
   "سيفرت", "بيكريل", "تريتيوم", "يود", "سيزيوم", "ines"]

/-- Lexicon `SEVERITY_HIGH` from the source. -/
def SEVERITY_HIGH : List String :=
  ["state of emergency", "declared",
   "explosion", "fire", "meltdown", "core", "containment",
   "uncontrolled", "spike in radiation",
   "offsite dose", "dose rate",
   "ines 3", "ines 4", "ines 5", "ines 6", "ines 7",
   "إعلان حالة طوارئ", "انفجار", "حريق", "انصهار", "قلب المفاعل", "احتواء",
   "خارج السيطرة", "ارتفاع الإشعاع", "خارج الموقع", "معدل الجرعة",
   "مستوى ines"]

/-- Lexicon `SEVERITY_MED` from the source. -/
def SEVERITY_MED : List String :=
  ["leak", "spill", "shutdown", "scram", "incident",
   "investigation", "fault", "precaution",
   "minor release", "monitoring increased", "safety concern",
   "تسرب", "انسكاب", "إيقاف", "إيقاف طارئ", "حادث",
   "تحقيق", "عطل", "احترازي",
   "إطلاق طفيف", "رفع المراقبة", "مخاوف سلامة"]

/-- Lexicon `EVAC_WORDS` from the source. -/
def EVAC_WORDS : List String := ["evacuat", "shelter", "إخلاء", "إيواء"]

/-- Lexicon `NEAR_KSA_HINTS` from the source. -/
def NEAR_KSA_HINTS : List String :=
  ["saudi", "riyadh", "jeddah", "red sea", "gulf", "arabian gulf",
   "iran", "iraq", "kuwait", "qatar", "bahrain", "uae", "oman", "yemen",
   "jordan", "syria", "lebanon", "turkey", "egypt",
   "السعودية", "الرياض", "جدة", "البحر الأحمر", "الخليج", "الخليج العربي",
   "إيران", "العراق", "الكويت", "قطر", "البحرين", "الإمارات", "عُمان", "اليمن",
   "الأردن", "سوريا", "لبنان", "تركيا", "مصر"]

/-- Value of `SUMMARY_HOURS = {6, 18}` from the source. -/
def SUMMARY_HOURS : List Nat := [6, 18]

/-- Function `source_label` from the source: map a feed URL to its label string. -/
def source_label (url : String) : String :=
  if strContains url "www-news.iaea.org" then "IAEA"
  else if strContains url "nrc.gov" && strContains url "feed=event" then "NRC (Event)"
  else if strContains url "nrc.gov" && strContains url "feed=news" then "NRC (News)"
  else if strContains url "news.google.com" then "Google News"
  else "RSS"

/-- Function `is_noise` from the source. -/
def is_noise (title summary : String) : Bool :=
  containsAny (blobOf title summary) NOISE_BLOCK

/-- Function `is_regulatory` from the source. -/
def is_regulatory (title summary : String) : Bool :=
  containsAny (blobOf title summary) REGULATORY_WORDS

/-- Function `has_radiation_evidence` from the source. -/
def has_radiation_evidence (title summary : String) : Bool :=
  containsAnyLower (blobOf title summary) RADIATION_EVIDENCE

/-- Function `is_relevant` from the source: noise blocks, otherwise any keyword. -/
def is_relevant (title summary : String) : Bool :=
  if is_noise title summary then false
  else containsAnyLower (blobOf title summary) KEYWORDS

/-- Function `classify_event` from the source: the six-rule cascade, returning the
source's Arabic label strings. -/
def classify_event (title summary source : String) : String :=
  let blob := blobOf title summary
  let official := startsWithStr source "IAEA" || startsWithStr source "NRC"
  let evidence := has_radiation_evidence title summary
  let regulatory := is_regulatory title summary
  let evac := containsAny blob EVAC_WORDS
  if regulatory && !evidence then "تنظيمي (ليس حادث)"
  else if evac && !evidence then "ضجيج سياسي/أمني (إخلاء بدون دليل إشعاعي)"
  else if evidence && official && containsAny blob SEVERITY_HIGH then
    "حادث مؤكد/طوارئ (مؤشرات قوية)"
  else if evidence && (official || containsAny blob SEVERITY_MED) then
    "حادث محتمل (يحتاج متابعة)"
  else if evidence then "إشارة إشعاعية (ضعيفة)"
  else "غير مصنف"

/-- The assessment dictionary returned by `smart_assess`. -/
structure Assessment where
  impact : String
  readiness : String
  score : Nat
  level : String
  reasons : List String
deriving DecidableEq, Repr

/-- Function `smart_assess` from the source: short-circuit for regulatory items,
severity computation with the evacuation adjustment, short-circuit for
Google News items without radiation evidence, then the six-cell table. -/
def smart_assess (title summary source : String) : Assessment :=
  let blob := blobOf title summary
  let official := startsWithStr source "IAEA" || startsWithStr source "NRC"
  let near := containsAnyLower blob NEAR_KSA_HINTS
  let evidence := has_radiation_evidence title summary
  let evac := containsAny blob EVAC_WORDS
  let regulatory := is_regulatory title summary
  if regulatory && !evidence then
    { impact := "غير متوقع", readiness := "مراقبة فقط", score := 10,
      level := "🟢 منخفض", reasons := ["خبر تنظيمي/إداري — ليس حادث إشعاعي"] }
  else
    let sev0 : Nat := if containsAny blob SEVERITY_HIGH then 2
      else if containsAny blob SEVERITY_MED then 1 else 0
    let reasons0 : List String := if containsAny blob SEVERITY_HIGH then
        ["إشارات شدة عالية (انفجار/حريق/INES/مؤشر إشعاعي)"]
      else if containsAny blob SEVERITY_MED then
        ["إشارات شدة متوسطة (تسرب/إيقاف/تحقيق)"] else []
    let sev : Nat := if evac && !evidence then sev0
      else if evac && evidence then (if sev0 < 1 then 1 else sev0) else sev0
    let reasons1 : List String := if evac && !evidence then
        reasons0 ++ ["ذكر إخلاء بدون دليل إشعاعي (قد يكون سياق سياسي/أمني)"]
      else if evac && evidence then reasons0 ++ ["إخلاء مرتبط بمؤشر إشعاعي"]
      else reasons0
    let reasons2 := reasons1 ++ (if evidence then ["يوجد دليل إشعاعي صريح"] else [])
    let reasons3 := reasons2 ++ (if near then ["ذكر مواقع/دول قريبة من المملكة"] else [])
    let reasons4 := reasons3 ++ (if official then ["مصدر رسمي"] else [])
    if source == "Google News" && !evidence then
      { impact := "غير متوقع", readiness := "مراقبة فقط", score := 10,
        level := "🟢 منخفض",
        reasons := ["Google News بدون دليل إشعاعي صريح (تم تخفيض التقييم)"] }
    else
      let impact : String := if sev == 0 && !near then "غير متوقع"
        else if sev == 0 && near then "منخفض"
        else if sev == 1 && !near then "منخفض"
        else if sev == 1 && near then "متوسط"
        else if near then "مرتفع" else "متوسط"
      let readiness : String := if sev == 0 && !near then "مراقبة فقط"
        else if sev == 0 && near then "متابعة"
        else if sev == 1 && !near then "متابعة"
        else if sev == 1 && near then "متابعة عاجلة"
        else if near then "تصعيد فوري" else "متابعة عاجلة"
      let score : Nat := if sev == 0 && !near then 15
        else if sev == 0 && near then 30
        else if sev == 1 && !near then 40
        else if sev == 1 && near then 60
        else if near then 80 else 65
      let level : String := if sev == 0 && !near then "🟢 منخفض"
        else if sev == 0 && near then "🟠 متوسط"
        else if sev == 1 && !near then "🟠 متوسط"
        else "🔴 مرتفع"
      let reasons5 := if reasons4.isEmpty then ["لا توجد مؤشرات شدة/قرب واضحة"] else reasons4
      { impact := impact, readiness := readiness, score := score,
        level := level, reasons := reasons5 }

/-- The five source labels produced by `source_label`. -/
inductive SourceLabel
  | iaea
  | nrcEvent
  | nrcNews
  | googleNews
  | rss
deriving DecidableEq, Repr

/-- The label string of each `SourceLabel`, as `source_label` returns it. -/
def label_string : SourceLabel → String
  | .iaea => "IAEA"
  | .nrcEvent => "NRC (Event)"
  | .nrcNews => "NRC (News)"
  | .googleNews => "Google News"
  | .rss => "RSS"

/-- The six event kinds of the spec's classifier. -/
inductive EventKind
  | regulatoryNotice
  | securityNoise
  | confirmedIncident
  | probableIncident
  | weakSignal
  | unclassified
deriving DecidableEq, Repr

/-- The Arabic string `classify_event` returns for each event kind. -/
def kind_string : EventKind → String
  | .regulatoryNotice => "تنظيمي (ليس حادث)"
  | .securityNoise => "ضجيج سياسي/أمني (إخلاء بدون دليل إشعاعي)"
  | .confirmedIncident => "حادث مؤكد/طوارئ (مؤشرات قوية)"
  | .probableIncident => "حادث محتمل (يحتاج متابعة)"
  | .weakSignal => "إشارة إشعاعية (ضعيفة)"
  | .unclassified => "غير مصنف"

/-- Classifier as the spec words it: the same six-rule cascade, with
`official` defined as membership of the source label in
IAEA / NRC-Event / NRC-News.  This is the spec-side definition used to
state the refinement claim about `classify_event`. -/
def classify_spec (title summary : String) (l : SourceLabel) : EventKind :=
  let blob := blobOf title summary
  let official := l == SourceLabel.iaea || l == SourceLabel.nrcEvent || l == SourceLabel.nrcNews
  let evidence := has_radiation_evidence title summary
  let regulatory := is_regulatory title summary
  let evac := containsAny blob EVAC_WORDS
  if regulatory && !evidence then .regulatoryNotice
  else if evac && !evidence then .securityNoise
  else if evidence && official && containsAny blob SEVERITY_HIGH then .confirmedIncident
  else if evidence && (official || containsAny blob SEVERITY_MED) then .probableIncident
  else if evidence then .weakSignal
  else .unclassified

/-- The final severity level `sev` computed inside `smart_assess`:
severity-high gives 2, else severity-medium gives 1, else 0; evacuation
together with evidence raises it to at least 1. -/
def sev_of (title summary : String) : Nat :=
  let blob := blobOf title summary
  let evidence := has_radiation_evidence title summary
  let evac := containsAny blob EVAC_WORDS
  let sev0 : Nat := if containsAny blob SEVERITY_HIGH then 2
    else if containsAny blob SEVERITY_MED then 1 else 0
  if evac && !evidence then sev0
  else if evac && evidence then (if sev0 < 1 then 1 else sev0) else sev0

/-- The geographic-proximity flag `near` computed inside `smart_assess`. -/
def near_of (title summary : String) : Bool :=
  containsAnyLower (blobOf title summary) NEAR_KSA_HINTS

/-- The six-cell score table of `smart_assess`. -/
def score_table (sev : Nat) (near : Bool) : Nat :=
  if sev == 0 && !near then 15
  else if sev == 0 && near then 30
  else if sev == 1 && !near then 40
  else if sev == 1 && near then 60
  else if near then 80 else 65

/-- The six-cell `(impact, readiness, score, tier)` table of `smart_assess`.
English reading of the Arabic labels: impact "غير متوقع" = none expected,
"منخفض" = low, "متوسط" = moderate, "مرتفع" = high; readiness
"مراقبة فقط" = monitor only, "متابعة" = follow-up, "متابعة عاجلة" =
urgent follow-up, "تصعيد فوري" = immediate escalation; tier "🟢 منخفض" =
low, "🟠 متوسط" = medium, "🔴 مرتفع" = high. -/
def assess_table (sev : Nat) (near : Bool) : String × String × Nat × String :=
  if sev == 0 && !near then ("غير متوقع", "مراقبة فقط", 15, "🟢 منخفض")
  else if sev == 0 && near then ("منخفض", "متابعة", 30, "🟠 متوسط")
  else if sev == 1 && !near then ("منخفض", "متابعة", 40, "🟠 متوسط")
  else if sev == 1 && near then ("متوسط", "متابعة عاجلة", 60, "🔴 مرتفع")
  else if near then ("مرتفع", "تصعيد فوري", 80, "🔴 مرتفع")
  else ("متوسط", "متابعة عاجلة", 65, "🔴 مرتفع")

/-- Function `should_send_summary` from the source.  The wall-clock hour and the
hour-window key `now.strftime("%Y%m%d%H")` come from the same `now`; they
are passed in explicitly, together with the stored
`state["last_summary_ymdhr"]`.  Returns the decision and the new stored
key (the code mutates the state before returning `True`). -/
def should_send_summary (hour : Nat) (key lastKey : String) : Bool × String :=
  if SUMMARY_HOURS.contains hour && lastKey != key then (true, key)
  else (false, lastKey)

/-- Iterate `should_send_summary` over `n` runs that all happen inside the
same hour window (same `hour` and same `key`), threading the persisted
`last_summary_ymdhr` through; returns the number of rollups emitted and
the final stored key. -/
def run_summaries (hour : Nat) (key : String) : Nat → String → Nat × String
  | 0, lastKey => (0, lastKey)
  | n + 1, lastKey =>
    let r := should_send_summary hour key lastKey
    let rest := run_summaries hour key n r.2
    ((if r.1 then 1 else 0) + rest.1, rest.2)

/-- A feed entry as `main` reads it: `e.get("title")`, `e.get("summary")`,
`e.get("link")` (absent fields modelled as `""`), the identity fields
`e.get("id")` and `e.get("guid")`, and `stale` modelling
`parse_entry_time(e) is not None and parse_entry_time(e) < cutoff`
(wall-clock time is external to the embedding). -/
structure Entry where
  title : String
  summary : String
  link : String
  eid : String
  eguid : String
  stale : Bool
deriving DecidableEq, Repr

/-- The entry identity used for fingerprinting:
`e.get("id") or e.get("guid") or link or (title + label)`, where `link`
and `title` are the stripped values `main` computes. -/
def entry_identity (label : String) (e : Entry) : String :=
  pyOr e.eid (pyOr e.eguid (pyOr (pyStrip e.link) (pyStrip e.title ++ label)))

/-- The event fingerprint `gid = sha1(label + "::" + guid)`; the SHA-1
hash is the external `hashlib` collaborator, passed as `hash`. -/
def fingerprint (hash : String → String) (label : String) (e : Entry) : String :=
  hash (label ++ "::" ++ entry_identity label e)

/-- In-run mutable state of `main`: the `seen` ledger (fingerprint to
first-seen timestamp), the list of newly notified events, and the worst
score so far (initialised to 15). -/
structure RunState where
  seen : List (String × String)
  new_events : List (String × String × String × Assessment × String)
  worst_score : Nat
deriving DecidableEq, Repr

/-- Membership of a fingerprint in the `seen` ledger (`gid in seen`). -/
def seenHas (seen : List (String × String)) (gid : String) : Bool :=
  seen.any (fun p => p.1 == gid)

/-- The notification text `main` builds for a new event (translation is the
external collaborator `translate`; `nowStr` is `now.strftime('%Y-%m-%d %H:%M')`). -/
def build_msg (translate : String → String) (nowStr label title link : String)
    (a : Assessment) (kind : String) : String :=
  "☢️ تنبيه إشعاعي/نووي (A+)\n" ++
  "🕒 " ++ nowStr ++ " KSA\n" ++
  "════════════════════\n" ++
  "🌍 التقييم السريع:\n" ++
  "• التأثير على المملكة: " ++ a.impact ++ "\n" ++
  "• مستوى الجاهزية: " ++ a.readiness ++ "\n" ++
  "• مستوى الخطورة: " ++ a.level ++ " (" ++ toString a.score ++ "/100)\n" ++
  "• السبب: " ++ String.intercalate "؛ " (a.reasons.take 3) ++ "\n" ++
  "════════════════════\n" ++
  "🧾 نوع الخبر: " ++ kind ++ "\n" ++
  "════════════════════\n" ++
  "📌 المصدر: " ++ label ++ "\n" ++
  "📰 " ++ title ++ "\n" ++
  "🇸🇦 الترجمة: " ++ translate title ++ "\n" ++
  "🔗 " ++ link ++ "\n"

/-- One iteration of the entry loop of `main` for an entry of the feed
labelled `label`: relevance filter, freshness cutoff, fingerprinting, the
Google-News-without-evidence suppression, assessment, dedup check,
notification build and send.  `telegram_send` calls
`raise_for_status()`, so a failed send raises; this is modelled by the
`Except` error, which aborts the remaining computation of `main`. -/
def process_entry (hash translate : String → String) (send : String → Bool)
    (nowStr nowTs label : String) (st : RunState) (e : Entry) :
    Except String RunState :=
  let title := pyStrip e.title
  let summary := pyStrip e.summary
  let link := pyStrip e.link
  if !is_relevant title summary then .ok st
  else if e.stale then .ok st
  else
    let gid := fingerprint hash label e
    if label == "Google News" && !has_radiation_evidence title summary then
      .ok { st with seen := if seenHas st.seen gid then st.seen
                            else st.seen ++ [(gid, nowTs)] }
    else
      let a := smart_assess title summary label
      let worst := max st.worst_score a.score
      let kind := classify_event title summary label
      if seenHas st.seen gid then .ok { st with worst_score := worst }
      else
        let msg := build_msg translate nowStr label title link a kind
        if send msg then
          .ok { seen := st.seen ++ [(gid, nowTs)],
                new_events := st.new_events ++ [(label, title, link, a, kind)],
                worst_score := worst }
        else .error "telegram_send: HTTPError"

/-- The entry loop of `main` over a list of entries of one feed: a raised
delivery error propagates and aborts the rest of the loop. -/
def run_entries (hash translate : String → String) (send : String → Bool)
    (nowStr nowTs label : String) : RunState → List Entry → Except String RunState
  | st, [] => .ok st
  | st, e :: rest =>
    match process_entry hash translate send nowStr nowTs label st e with
    | .ok st1 => run_entries hash translate send nowStr nowTs label st1 rest
    | .error m => .error m

/-- The persisted state: the `seen` mapping and `last_summary_ymdhr`. -/
structure LedgerState where
  seen : List (String × String)
  last_summary_ymdhr : String
deriving DecidableEq, Repr

/-- Condition of the state file on disk as `load_state` encounters it:
absent, unreadable (`open` raises `OSError`), or readable with
`json.load` either succeeding with a parsed state or raising on
malformed content. -/
inductive StateFile
  | absent
  | unreadable
  | readable (parsed : Option LedgerState)

/-- Function `load_state` from the source: `os.path.exists` guards only the absent
case, which returns the empty ledger; `open` and `json.load` are not
wrapped in any exception handler, so an unreadable or malformed file
raises out of `load_state`. -/
def load_state : StateFile → Except String LedgerState
  | .absent => .ok { seen := [], last_summary_ymdhr := "" }
  | .unreadable => .error "OSError"
  | .readable none => .error "json.JSONDecodeError"
  | .readable (some st) => .ok st

/-- The official-source test of the code (`source.startswith("IAEA") or
source.startswith("NRC")`) agrees, on the five label strings, with the
spec's membership test. -/
theorem official_startswith_eq_membership (l : SourceLabel) :
    (startsWithStr (label_string l) "IAEA" || startsWithStr (label_string l) "NRC")
      = (l == SourceLabel.iaea || l == SourceLabel.nrcEvent || l == SourceLabel.nrcNews) := by
  cases l <;> rfl

/-- C1: for every title, summary and source label, `classify_event` follows
the six-rule decision order with first match winning — (1) regulatory and
not evidence gives regulatory-notice; (2) evacuation and not evidence gives
security-noise; (3) evidence, official and a severity-high phrase gives
confirmed-incident; (4) evidence and (official or a severity-medium
phrase) gives probable-incident; (5) evidence alone gives weak-signal;
(6) otherwise unclassified — where official means the source label is
IAEA, NRC-Event or NRC-News (`classify_spec` states exactly this cascade). -/
theorem classify_event_follows_decision_order (title summary : String) (l : SourceLabel) :
    classify_event title summary (label_string l) = kind_string (classify_spec title summary l) := by
  simp only [classify_event, classify_spec, official_startswith_eq_membership,
    apply_ite kind_string]
  simp only [kind_string]

/-- C3: whenever the blob contains a regulatory phrase and no
radiation-evidence phrase, `classify_event` returns regulatory-notice
and `smart_assess` short-circuits to score 10, tier low ("🟢 منخفض"),
impact none expected ("غير متوقع"), readiness monitor only
("مراقبة فقط") — regardless of severity, evacuation, proximity or
source-trust matches (the statement quantifies over every title, summary
and source). -/
theorem regulatory_short_circuit (title summary source : String)
    (hreg : is_regulatory title summary = true)
    (hev : has_radiation_evidence title summary = false) :
    classify_event title summary source = "تنظيمي (ليس حادث)"
    ∧ smart_assess title summary source =
        { impact := "غير متوقع", readiness := "مراقبة فقط", score := 10,
          level := "🟢 منخفض", reasons := ["خبر تنظيمي/إداري — ليس حادث إشعاعي"] } := by
  constructor
  · simp [classify_event, hreg, hev]
  · simp [smart_assess, hreg, hev]

/-- Witness for C3: the spec's own scenario, an NRC comment-period notice. -/
theorem regulatory_short_circuit_witness :
    is_regulatory "NRC opens public comment period on new licensing framework" "" = true
    ∧ has_radiation_evidence "NRC opens public comment period on new licensing framework" "" = false
    ∧ (classify_event "NRC opens public comment period on new licensing framework" "" "NRC (News)" = "تنظيمي (ليس حادث)"
       ∧ smart_assess "NRC opens public comment period on new licensing framework" "" "NRC (News)" =
          { impact := "غير متوقع", readiness := "مراقبة فقط", score := 10,
            level := "🟢 منخفض", reasons := ["خبر تنظيمي/إداري — ليس حادث إشعاعي"] }) :=
  ⟨by decide, by decide,
   regulatory_short_circuit "NRC opens public comment period on new licensing framework" ""
     "NRC (News)" (by decide) (by decide)⟩

/-- The title of the spec's IAEA scenario (C7). -/
def iaeaScenarioTitle : String :=
  "IAEA declares state of emergency after reactor containment breach near Jordan border"

/-- Counterexample to C7 as stated: on the scenario input the
radiation-evidence predicate is false (none of the `RADIATION_EVIDENCE`
phrases occurs in the title — in particular "containment" is not
"contamination"), so it is not the case that evidence is true and
`classify_event` returns confirmed-incident. -/
theorem iaea_scenario_claim_false :
    ¬(has_radiation_evidence iaeaScenarioTitle "" = true
      ∧ classify_event iaeaScenarioTitle "" "IAEA" = "حادث مؤكد/طوارئ (مؤشرات قوية)") := by
  decide

/-- C7 amended: on the scenario input the radiation-evidence predicate is
false, `classify_event` returns unclassified, and `smart_assess` still
returns score 80 with tier high (driven by the severity-high phrase
"state of emergency" and the proximity hint "jordan"). -/
theorem iaea_scenario_behavior :
    has_radiation_evidence iaeaScenarioTitle "" = false
    ∧ classify_event iaeaScenarioTitle "" "IAEA" = "غير مصنف"
    ∧ (smart_assess iaeaScenarioTitle "" "IAEA").score = 80
    ∧ (smart_assess iaeaScenarioTitle "" "IAEA").level = "🔴 مرتفع" := by
  refine ⟨by decide, by decide, by decide, by decide⟩

/-- Counterexample to C9 as stated: a readable state file whose content
`json.load` cannot parse does not yield the empty ledger — `load_state`
raises instead of failing safe. -/
theorem malformed_state_file_not_empty_ledger :
    load_state (StateFile.readable none) ≠ .ok { seen := [], last_summary_ymdhr := "" } := by
  simp [load_state]

/-- C9 amended: only a missing state file fails safe to the empty ledger
(empty seen mapping, empty last-summary key); an unreadable file raises
`OSError` and a malformed file raises `json.JSONDecodeError`, aborting the
run, while a well-formed file loads as parsed. -/
theorem load_state_fail_safe_only_when_absent :
    load_state StateFile.absent = .ok { seen := [], last_summary_ymdhr := "" }
    ∧ load_state StateFile.unreadable = .error "OSError"
    ∧ load_state (StateFile.readable none) = .error "json.JSONDecodeError"
    ∧ ∀ st : LedgerState, load_state (StateFile.readable (some st)) = .ok st := by
  exact ⟨rfl, rfl, rfl, fun st => rfl⟩

/-- Once the stored key equals the current hour-window key, no further run
in that window emits a rollup. -/
theorem run_summaries_after_emit (hour : Nat) (key : String) (n : Nat) :
    run_summaries hour key n key = (0, key) := by
  induction n with
  | zero => rfl
  | succ n ih => simp [run_summaries, should_send_summary, ih]

/-- C6: `should_send_summary` returns true exactly when the wall-clock hour
is in the trigger set {6, 18} and the current hour-window key differs from
the stored last-summary key; on returning true it stores the new key; and
over any number of runs inside the same hour window (same hour and same
key, threading the persisted key), at most one rollup is emitted. -/
theorem summary_once_per_window (hour : Nat) (key lastKey : String) (n : Nat) :
    (should_send_summary hour key lastKey).1 = (SUMMARY_HOURS.contains hour && lastKey != key)
    ∧ (should_send_summary hour key lastKey).2 =
        (if (should_send_summary hour key lastKey).1 then key else lastKey)
    ∧ (run_summaries hour key n lastKey).1 ≤ 1 := by
  refine ⟨?_, ?_, ?_⟩
  · by_cases h1 : hour ∈ SUMMARY_HOURS <;> by_cases h2 : lastKey = key <;>
      simp [should_send_summary, h1, h2]
  · by_cases h1 : hour ∈ SUMMARY_HOURS <;> by_cases h2 : lastKey = key <;>
      simp [should_send_summary, h1, h2]
  · induction n generalizing lastKey with
    | zero => simp [run_summaries]
    | succ n ih =>
      by_cases h1 : hour ∈ SUMMARY_HOURS <;> by_cases h2 : lastKey = key <;>
        simp [run_summaries, should_send_summary, h1, h2, run_summaries_after_emit]
      all_goals exact ih lastKey

/-- The score is monotonically non-decreasing in the severity level. -/
theorem score_table_mono_sev (s1 s2 : Nat) (near : Bool) (h : s1 ≤ s2) :
    score_table s1 near ≤ score_table s2 near := by
  rcases s1 with _ | _ | s1 <;> rcases s2 with _ | _ | s2 <;> cases near <;>
    simp [score_table] <;> omega

/-- The score is monotonically non-decreasing in proximity for fixed severity. -/
theorem score_table_mono_near (sev : Nat) :
    score_table sev false ≤ score_table sev true := by
  rcases sev with _ | _ | sev <;> simp [score_table]

/-- The score component of the six-cell table is `score_table`. -/
theorem assess_table_score (sev : Nat) (near : Bool) :
    (assess_table sev near).2.2.1 = score_table sev near := by
  rcases sev with _ | _ | sev <;> cases near <;> simp [assess_table, score_table]

/-- C2: for every input not caught by a short-circuit policy (neither the
regulatory short-circuit nor the Google-News-without-evidence
short-circuit), `smart_assess` maps the severity level `sev_of` and the
proximity flag `near_of` to `(impact, readiness, score, tier)` by the fixed
six-cell table `assess_table` — cells (0,false) 15 low, (0,true) 30 medium,
(1,false) 40 medium, (1,true) 60 high, (2,false) 65 high, (2,true) 80
high — and the table's score is monotonically non-decreasing in `sev` and,
for fixed `sev`, in `near`. -/
theorem smart_assess_follows_table (title summary source : String)
    (hA : (is_regulatory title summary && !has_radiation_evidence title summary) = false)
    (hB : ((source == "Google News") && !has_radiation_evidence title summary) = false) :
    ((smart_assess title summary source).impact, (smart_assess title summary source).readiness,
      (smart_assess title summary source).score, (smart_assess title summary source).level)
      = assess_table (sev_of title summary) (near_of title summary)
    ∧ (∀ s : Nat, ∀ n : Bool, (assess_table s n).2.2.1 = score_table s n)
    ∧ (∀ s1 s2 : Nat, ∀ n : Bool, s1 ≤ s2 → score_table s1 n ≤ score_table s2 n)
    ∧ (∀ s : Nat, score_table s false ≤ score_table s true) := by
  refine ⟨?_, assess_table_score, score_table_mono_sev, score_table_mono_near⟩
  cases hH : containsAny (blobOf title summary) SEVERITY_HIGH <;>
  cases hM : containsAny (blobOf title summary) SEVERITY_MED <;>
  cases hEv : has_radiation_evidence title summary <;>
  cases hEc : containsAny (blobOf title summary) EVAC_WORDS <;>
  cases hN : containsAnyLower (blobOf title summary) NEAR_KSA_HINTS <;>
    simp_all [smart_assess, sev_of, near_of, assess_table]

/-- Witness for C2: the spec's tritium-leak scenario — severity-medium
match, radiation evidence present, no proximity hint, official source —
lands in the (1,false) cell with score 40, tier medium. -/
theorem smart_assess_follows_table_witness :
    ((is_regulatory "Minor tritium leak reported at coastal plant, investigation underway" ""
        && !has_radiation_evidence "Minor tritium leak reported at coastal plant, investigation underway" "") = false)
    ∧ ((("NRC (News)" == "Google News")
        && !has_radiation_evidence "Minor tritium leak reported at coastal plant, investigation underway" "") = false)
    ∧ (((smart_assess "Minor tritium leak reported at coastal plant, investigation underway" "" "NRC (News)").impact,
        (smart_assess "Minor tritium leak reported at coastal plant, investigation underway" "" "NRC (News)").readiness,
        (smart_assess "Minor tritium leak reported at coastal plant, investigation underway" "" "NRC (News)").score,
        (smart_assess "Minor tritium leak reported at coastal plant, investigation underway" "" "NRC (News)").level)
        = assess_table
            (sev_of "Minor tritium leak reported at coastal plant, investigation underway" "")
            (near_of "Minor tritium leak reported at coastal plant, investigation underway" "")
       ∧ (∀ s : Nat, ∀ n : Bool, (assess_table s n).2.2.1 = score_table s n)
       ∧ (∀ s1 s2 : Nat, ∀ n : Bool, s1 ≤ s2 → score_table s1 n ≤ score_table s2 n)
       ∧ (∀ s : Nat, score_table s false ≤ score_table s true)) :=
  ⟨by decide, by decide,
   smart_assess_follows_table "Minor tritium leak reported at coastal plant, investigation underway" ""
     "NRC (News)" (by decide) (by decide)⟩

/-- C10: for every title, summary and source label, `smart_assess` returns
a score in the finite set {10, 15, 30, 40, 60, 65, 80} (in particular an
integer within [0,100]) and a non-empty reasons list. -/
theorem smart_assess_score_set_and_reasons (title summary source : String) :
    (smart_assess title summary source).score ∈ ([10, 15, 30, 40, 60, 65, 80] : List Nat)
    ∧ (smart_assess title summary source).reasons ≠ [] := by
  cases hR : is_regulatory title summary <;>
  cases hEv : has_radiation_evidence title summary <;>
  cases hH : containsAny (blobOf title summary) SEVERITY_HIGH <;>
  cases hM : containsAny (blobOf title summary) SEVERITY_MED <;>
  cases hEc : containsAny (blobOf title summary) EVAC_WORDS <;>
  cases hN : containsAnyLower (blobOf title summary) NEAR_KSA_HINTS <;>
  cases hG : source == "Google News" <;>
  cases hO : (startsWithStr source "IAEA" || startsWithStr source "NRC") <;>
    simp_all [smart_assess]

/-- C5: the fingerprint of a feed item is the hash of the source label and
the entry identity — the feed GUID (`id` else `guid`), else the link, else
title plus source label — and for any item that qualifies for notification
(relevant, fresh, not Google-News-without-evidence, fingerprint not yet
seen, delivery succeeding), processing it notifies exactly once and marks
the fingerprint seen; afterwards, any run whose ledger contains the
fingerprint (in particular the next run sharing the persisted ledger)
produces no further notification for it, whatever its delivery oracle. -/
theorem fingerprint_dedup_exactly_once (hash translate : String → String)
    (send : String → Bool) (nowStr nowTs label : String) (e : Entry) (st : RunState)
    (hrel : is_relevant (pyStrip e.title) (pyStrip e.summary) = true)
    (hfresh : e.stale = false)
    (hgn : (label == "Google News" && !has_radiation_evidence (pyStrip e.title) (pyStrip e.summary)) = false)
    (hnew : seenHas st.seen (fingerprint hash label e) = false)
    (hsend : send (build_msg translate nowStr label (pyStrip e.title) (pyStrip e.link)
        (smart_assess (pyStrip e.title) (pyStrip e.summary) label)
        (classify_event (pyStrip e.title) (pyStrip e.summary) label)) = true) :
    fingerprint hash label e
      = hash (label ++ "::" ++ pyOr e.eid (pyOr e.eguid (pyOr (pyStrip e.link) (pyStrip e.title ++ label))))
    ∧ process_entry hash translate send nowStr nowTs label st e =
        .ok { seen := st.seen ++ [(fingerprint hash label e, nowTs)],
              new_events := st.new_events ++ [(label, pyStrip e.title, pyStrip e.link,
                smart_assess (pyStrip e.title) (pyStrip e.summary) label,
                classify_event (pyStrip e.title) (pyStrip e.summary) label)],
              worst_score := max st.worst_score
                (smart_assess (pyStrip e.title) (pyStrip e.summary) label).score }
    ∧ ∀ (st2 : RunState) (send2 : String → Bool),
        seenHas st2.seen (fingerprint hash label e) = true →
        ∃ st3, process_entry hash translate send2 nowStr nowTs label st2 e = .ok st3
          ∧ st3.new_events = st2.new_events ∧ st3.seen = st2.seen := by
  refine ⟨rfl, ?_, ?_⟩
  · simp [process_entry, hrel, hfresh, hgn, hnew, hsend]
  · intro st2 send2 h2
    exact ⟨{ st2 with worst_score :=
                        max st2.worst_score
                          (smart_assess (pyStrip e.title) (pyStrip e.summary) label).score },
      by simp [process_entry, hrel, hfresh, hgn, h2], rfl, rfl⟩

/-- A concrete IAEA entry used to instantiate the dedup theorem. -/
def wEntry : Entry :=
  { title := "Spike in radiation near reactor", summary := "",
    link := "http://example.org/a", eid := "ID-1", eguid := "", stale := false }

/-- The empty initial run state of `main` (`worst_score = 15`). -/
def initState : RunState := { seen := [], new_events := [], worst_score := 15 }

/-- Witness for C5: a fresh relevant IAEA entry on an empty ledger is
notified and marked, and is never re-notified once its fingerprint is in
the ledger. -/
theorem fingerprint_dedup_exactly_once_witness :
    is_relevant (pyStrip wEntry.title) (pyStrip wEntry.summary) = true
    ∧ wEntry.stale = false
    ∧ (("IAEA" == "Google News" && !has_radiation_evidence (pyStrip wEntry.title) (pyStrip wEntry.summary)) = false)
    ∧ seenHas initState.seen (fingerprint (fun s => s) "IAEA" wEntry) = false
    ∧ (fun _ : String => true) (build_msg (fun s => s) "2025-01-01 06:00" "IAEA"
        (pyStrip wEntry.title) (pyStrip wEntry.link)
        (smart_assess (pyStrip wEntry.title) (pyStrip wEntry.summary) "IAEA")
        (classify_event (pyStrip wEntry.title) (pyStrip wEntry.summary) "IAEA")) = true
    ∧ (fingerprint (fun s => s) "IAEA" wEntry
        = (fun s => s) ("IAEA" ++ "::" ++ pyOr wEntry.eid (pyOr wEntry.eguid
            (pyOr (pyStrip wEntry.link) (pyStrip wEntry.title ++ "IAEA"))))
      ∧ process_entry (fun s => s) (fun s => s) (fun _ => true) "2025-01-01 06:00"
          "2025-01-01 06:00:00" "IAEA" initState wEntry =
          .ok { seen := initState.seen ++ [(fingerprint (fun s => s) "IAEA" wEntry, "2025-01-01 06:00:00")],
                new_events := initState.new_events ++ [("IAEA", pyStrip wEntry.title, pyStrip wEntry.link,
                  smart_assess (pyStrip wEntry.title) (pyStrip wEntry.summary) "IAEA",
                  classify_event (pyStrip wEntry.title) (pyStrip wEntry.summary) "IAEA")],
                worst_score := max initState.worst_score
                  (smart_assess (pyStrip wEntry.title) (pyStrip wEntry.summary) "IAEA").score }
      ∧ ∀ (st2 : RunState) (send2 : String → Bool),
          seenHas st2.seen (fingerprint (fun s => s) "IAEA" wEntry) = true →
          ∃ st3, process_entry (fun s => s) (fun s => s) send2 "2025-01-01 06:00"
              "2025-01-01 06:00:00" "IAEA" st2 wEntry = .ok st3
            ∧ st3.new_events = st2.new_events ∧ st3.seen = st2.seen) :=
  ⟨by decide, by decide, by decide, by decide, rfl,
   fingerprint_dedup_exactly_once (fun s => s) (fun s => s) (fun _ => true)
     "2025-01-01 06:00" "2025-01-01 06:00:00" "IAEA" wEntry initState
     (by decide) (by decide) (by decide) (by decide) rfl⟩

/-- Counterexample to C4 as stated: on the spec's own Google-News scenario
text, which contains no radiation-evidence phrase, `smart_assess` forces
score 10, not 15. -/
theorem google_news_score_not_fifteen :
    (smart_assess "Protesters evacuate capital amid unrest" "" "Google News").score ≠ 15 := by
  decide

/-- C4 amended: for a Google News item whose blob contains no
radiation-evidence phrase, `smart_assess` forces score 10 (not 15) and
tier low, and the entry loop of `main` marks the item's fingerprint as
seen in the ledger without sending any notification — the conclusion
holds for every delivery oracle `send`, so no send is attempted. -/
theorem google_news_no_evidence_suppressed (hash translate : String → String)
    (send : String → Bool) (nowStr nowTs : String) (st : RunState) (e : Entry)
    (hev : has_radiation_evidence (pyStrip e.title) (pyStrip e.summary) = false)
    (hrel : is_relevant (pyStrip e.title) (pyStrip e.summary) = true)
    (hfresh : e.stale = false)
    (hnew : seenHas st.seen (fingerprint hash "Google News" e) = false) :
    (smart_assess (pyStrip e.title) (pyStrip e.summary) "Google News").score = 10
    ∧ (smart_assess (pyStrip e.title) (pyStrip e.summary) "Google News").level = "🟢 منخفض"
    ∧ process_entry hash translate send nowStr nowTs "Google News" st e =
        .ok { st with seen := st.seen ++ [(fingerprint hash "Google News" e, nowTs)] } := by
  refine ⟨?_, ?_, ?_⟩
  · cases hR : is_regulatory (pyStrip e.title) (pyStrip e.summary) <;>
      simp [smart_assess, hev, hR]
  · cases hR : is_regulatory (pyStrip e.title) (pyStrip e.summary) <;>
      simp [smart_assess, hev, hR]
  · simp [process_entry, hrel, hfresh, hev, hnew]

/-- A concrete Google News entry without radiation evidence. -/
def gEntry : Entry :=
  { title := "Nuclear plant evacuation drill", summary := "",
    link := "http://example.org/g", eid := "G-1", eguid := "", stale := false }

/-- Witness for C4 amended: a relevant Google News entry with no
radiation-evidence phrase is scored 10/low and marked seen without
notification. -/
theorem google_news_no_evidence_suppressed_witness :
    has_radiation_evidence (pyStrip gEntry.title) (pyStrip gEntry.summary) = false
    ∧ is_relevant (pyStrip gEntry.title) (pyStrip gEntry.summary) = true
    ∧ gEntry.stale = false
    ∧ seenHas initState.seen (fingerprint (fun s => s) "Google News" gEntry) = false
    ∧ ((smart_assess (pyStrip gEntry.title) (pyStrip gEntry.summary) "Google News").score = 10
      ∧ (smart_assess (pyStrip gEntry.title) (pyStrip gEntry.summary) "Google News").level = "🟢 منخفض"
      ∧ process_entry (fun s => s) (fun s => s) (fun _ => false) "2025-01-01 06:00"
          "2025-01-01 06:00:00" "Google News" initState gEntry =
          .ok { initState with
                seen := initState.seen ++ [(fingerprint (fun s => s) "Google News" gEntry, "2025-01-01 06:00:00")] }) :=
  ⟨by decide, by decide, by decide, by decide,
   google_news_no_evidence_suppressed (fun s => s) (fun s => s) (fun _ => false)
     "2025-01-01 06:00" "2025-01-01 06:00:00" initState gEntry
     (by decide) (by decide) (by decide) (by decide)⟩

/-- A concrete relevant IAEA entry whose notification send will fail. -/
def dEntryA : Entry :=
  { title := "Spike in radiation after reactor fire", summary := "",
    link := "http://example.org/x", eid := "X-1", eguid := "", stale := false }

/-- A concrete relevant IAEA entry queued after the failing one. -/
def dEntryB : Entry :=
  { title := "Radiation leak under investigation", summary := "",
    link := "http://example.org/y", eid := "Y-1", eguid := "", stale := false }

/-- Counterexample to C8 as stated: with a delivery collaborator that
reports failure, the entry loop does not complete normally — the
`raise_for_status()` exception propagates, aborting the run before the
second entry is processed. -/
theorem delivery_failure_aborts_run :
    run_entries (fun s => s) (fun s => s) (fun _ => false) "2025-01-01 06:00"
      "2025-01-01 06:00:00" "IAEA" initState [dEntryA, dEntryB]
      = .error "telegram_send: HTTPError" := rfl

/-- C8 amended: a failure of the delivery collaborator while notifying a
new item raises out of the entry loop: the run aborts with the delivery
error, the remaining entries are not processed, and the send is not
retried. -/
theorem delivery_failure_propagates (hash translate : String → String)
    (send : String → Bool) (nowStr nowTs label : String) (st : RunState)
    (e : Entry) (rest : List Entry)
    (hrel : is_relevant (pyStrip e.title) (pyStrip e.summary) = true)
    (hfresh : e.stale = false)
    (hgn : (label == "Google News" && !has_radiation_evidence (pyStrip e.title) (pyStrip e.summary)) = false)
    (hnew : seenHas st.seen (fingerprint hash label e) = false)
    (hsend : send (build_msg translate nowStr label (pyStrip e.title) (pyStrip e.link)
        (smart_assess (pyStrip e.title) (pyStrip e.summary) label)
        (classify_event (pyStrip e.title) (pyStrip e.summary) label)) = false) :
    run_entries hash translate send nowStr nowTs label st (e :: rest)
      = .error "telegram_send: HTTPError" := by
  simp [run_entries, process_entry, hrel, hfresh, hgn, hnew, hsend]

/-- Witness for C8 amended: the failing send on a fresh relevant IAEA
entry aborts the loop. -/
theorem delivery_failure_propagates_witness :
    is_relevant (pyStrip dEntryA.title) (pyStrip dEntryA.summary) = true
    ∧ dEntryA.stale = false
    ∧ (("IAEA" == "Google News" && !has_radiation_evidence (pyStrip dEntryA.title) (pyStrip dEntryA.summary)) = false)
    ∧ seenHas initState.seen (fingerprint (fun s => s) "IAEA" dEntryA) = false
    ∧ (fun _ : String => false) (build_msg (fun s => s) "2025-01-01 06:00" "IAEA"
        (pyStrip dEntryA.title) (pyStrip dEntryA.link)
        (smart_assess (pyStrip dEntryA.title) (pyStrip dEntryA.summary) "IAEA")
        (classify_event (pyStrip dEntryA.title) (pyStrip dEntryA.summary) "IAEA")) = false
    ∧ run_entries (fun s => s) (fun s => s) (fun _ => false) "2025-01-01 06:00"
        "2025-01-01 06:00:00" "IAEA" initState [dEntryA]
        = .error "telegram_send: HTTPError" :=
  ⟨by decide, by decide, by decide, by decide, rfl,
   delivery_failure_propagates (fun s => s) (fun s => s) (fun _ => false)
     "2025-01-01 06:00" "2025-01-01 06:00:00" "IAEA" initState dEntryA []
     (by decide) (by decide) (by decide) (by decide) rfl⟩
